import Mathlib

/-!
Verification development for the marketplace backend's job lifecycle and
settlement engine: the ledger/escrow operations, the job state machine, the
peer-to-peer negotiation engine, and the payment verifier with replay
protection.  Monetary amounts (SQL `Numeric(20,8)` / Python `Decimal`) are
modelled as rationals; timestamps are modelled as rationals ordered by `<`.
Database rows are modelled as records; fetching a row by id inside a service
function is modelled by passing the record (or a finite map keyed by id) to
the corresponding Lean function; raising an exception is modelled with
`Except`.  Where a Python function commits part of its state changes before
raising, the Lean function returns the committed state together with the
outcome, so that non-atomic error paths are visible.
-/

deriving instance DecidableEq for Except

namespace AgentMarket

/-- Ledger transaction types, from `models/ledger_transaction.py`. -/
inductive LedgerTransactionType where
  | escrowLock
  | escrowRelease
  | escrowRefund
  deriving DecidableEq, Repr

/-- An immutable ledger journal entry, from `models/ledger_transaction.py`
(`LedgerTransaction`).  Only the semantically relevant columns are kept. -/
structure LedgerTransaction where
  jobId : String
  agentId : String
  counterpartyAgentId : Option String
  amount : ℚ
  currency : String
  transactionType : LedgerTransactionType
  deriving DecidableEq, Repr

/-- An agent row, from `models/agent.py` plus the `escrow_balance` column
added by migration `20260204_2330`.  `balance` is the available balance. -/
structure Agent where
  balance : ℚ
  escrowBalance : ℚ
  walletAddress : Option String
  jobsCompleted : ℕ
  jobsHired : ℕ
  totalEarned : ℚ
  totalSpent : ℚ
  reputationScore : ℚ
  deriving DecidableEq, Repr

/-- A fresh agent as created by `create_agent`: all balances and counters
start at zero (model defaults / migration server defaults). -/
def newAgent (wallet : Option String) : Agent :=
  { balance := 0
    escrowBalance := 0
    walletAddress := wallet
    jobsCompleted := 0
    jobsHired := 0
    totalEarned := 0
    totalSpent := 0
    reputationScore := 0 }

/-- `agent_service.update_balance`: adds `amount_delta` to the agent's
available balance.  The source performs no sign or floor check
("Amount to add (can be negative)"). -/
def updateBalance (a : Agent) (amountDelta : ℚ) : Agent :=
  { a with balance := a.balance + amountDelta }

/-- `escrow_service.lock_escrow`: move funds from the client's available
balance into escrow, writing one `escrow_lock` entry.  Fails when
`client.balance < amount`. -/
def lockEscrow (client : Agent) (jobId : String) (amount : ℚ)
    (currency : String := "USDC") :
    Except String (Agent × LedgerTransaction) :=
  if client.balance < amount then
    .error "Insufficient balance to fund escrow"
  else
    .ok ({ client with
            balance := client.balance - amount
            escrowBalance := client.escrowBalance + amount },
         { jobId := jobId
           agentId := "client"
           counterpartyAgentId := none
           amount := amount
           currency := currency
           transactionType := .escrowLock })

/-- `escrow_service.release_escrow`: pay out to the worker and refund the
remainder to the client, writing an `escrow_release` entry and, when the
remainder is positive, an `escrow_refund` entry.  Fails only when
`client.escrow_balance < escrow_total`; a `payout_amount` larger than
`escrow_total` is clamped down to `escrow_total` (the source has no check
that `payout_amount` is non-negative). -/
def releaseEscrow (client worker : Agent) (jobId : String)
    (payoutAmount escrowTotal : ℚ) (currency : String := "USDC") :
    Except String (Agent × Agent × List LedgerTransaction) :=
  if client.escrowBalance < escrowTotal then
    .error "Insufficient escrow balance to release"
  else
    let payout := if payoutAmount > escrowTotal then escrowTotal else payoutAmount
    let refundAmount := escrowTotal - payout
    let client' := { client with
                      escrowBalance := client.escrowBalance - escrowTotal
                      balance := if refundAmount > 0 then
                                   client.balance + refundAmount
                                 else client.balance }
    let worker' := { worker with balance := worker.balance + payout }
    let releaseEntry : LedgerTransaction :=
      { jobId := jobId
        agentId := "client"
        counterpartyAgentId := some "worker"
        amount := payout
        currency := currency
        transactionType := .escrowRelease }
    let refundEntry : LedgerTransaction :=
      { jobId := jobId
        agentId := "client"
        counterpartyAgentId := none
        amount := refundAmount
        currency := currency
        transactionType := .escrowRefund }
    .ok (client', worker',
         if refundAmount > 0 then [releaseEntry, refundEntry] else [releaseEntry])

/-- `escrow_service.refund_escrow`: move escrowed funds back to the client's
available balance, writing one `escrow_refund` entry.  Fails when
`client.escrow_balance < amount`. -/
def refundEscrow (client : Agent) (jobId : String) (amount : ℚ)
    (currency : String := "USDC") :
    Except String (Agent × LedgerTransaction) :=
  if client.escrowBalance < amount then
    .error "Insufficient escrow balance to refund"
  else
    .ok ({ client with
            escrowBalance := client.escrowBalance - amount
            balance := client.balance + amount },
         { jobId := jobId
           agentId := "client"
           counterpartyAgentId := none
           amount := amount
           currency := currency
           transactionType := .escrowRefund })

/-- The net effect of one ledger entry on the balances of the agent named in
its `agent_id` column, as a pair (available delta, escrow delta): a lock
moves `amount` from available into escrow, a release removes the paid-out
`amount` from escrow, and a refund moves `amount` from escrow back to
available. -/
def entryBalanceDelta (e : LedgerTransaction) : ℚ × ℚ :=
  match e.transactionType with
  | .escrowLock => (-e.amount, e.amount)
  | .escrowRelease => (0, -e.amount)
  | .escrowRefund => (e.amount, -e.amount)

/-- Round a rational to the nearest integer, halves to even — the behaviour
of Python's built-in `round`, used by `reputation_service`. -/
def pyRound (x : ℚ) : ℤ :=
  let f : ℤ := ⌊x⌋
  let r : ℚ := x - f
  if r < 1/2 then f
  else if r > 1/2 then f + 1
  else if Even f then f else f + 1

/-- Round a rational to 2 decimal places, halves to even (`round(x, 2)`). -/
def pyRound2 (x : ℚ) : ℚ := (pyRound (x * 100) : ℚ) / 100

/-- `reputation_service.update_reputation`: weighted rolling average with the
weight capped at 50; a worker with no completed jobs takes the rating as its
score.  The result is rounded to 2 decimals. -/
def updateReputation (worker : Agent) (newRating : ℕ) : Agent :=
  if worker.jobsCompleted = 0 then
    { worker with reputationScore := (newRating : ℚ) }
  else
    let weight : ℕ := min worker.jobsCompleted 50
    let newScore : ℚ :=
      (worker.reputationScore * weight + newRating) / (weight + 1)
    { worker with reputationScore := pyRound2 newScore }

/-- A job row, from `models/job.py`; only the columns the job workflow
functions read or write are kept.  Status fields are the string literals the
source uses. -/
structure Job where
  id : String
  clientAgentId : String
  workerAgentId : String
  status : String
  priceUsd : ℚ
  pricePer1kTokensUsd : ℚ
  workerMinPayoutUsd : ℚ
  clientMaxBudgetUsd : ℚ
  escrowStatus : String
  escrowAmountUsd : ℚ
  settlementAmountUsd : ℚ
  usageCostUsd : ℚ
  rating : Option ℕ
  review : Option String
  deliverableCount : ℕ
  deriving DecidableEq, Repr

/-- `job_service.VALID_TRANSITIONS`: the declared job state machine. -/
def VALID_TRANSITIONS : List (String × List String) :=
  [("pending", ["in_progress", "cancelled"]),
   ("in_progress", ["delivered", "failed"]),
   ("delivered", ["completed", "revision_requested"]),
   ("revision_requested", ["delivered"])]

/-- `job_service.start_job`: worker-only `pending → in_progress`. -/
def startJob (job : Job) (workerAgentId : String) : Except String Job :=
  if job.workerAgentId ≠ workerAgentId then
    .error "Not authorized - you are not the worker for this job"
  else if job.status ≠ "pending" then
    .error "Cannot start job with this status"
  else
    .ok { job with status := "in_progress" }

/-- `job_service.deliver_job`: worker-only
`{in_progress, revision_requested} → delivered`, appending a deliverable
whose version is the count of existing deliverables plus one. -/
def deliverJob (job : Job) (workerAgentId : String) : Except String Job :=
  if job.workerAgentId ≠ workerAgentId then
    .error "Not authorized - you are not the worker for this job"
  else if job.status ≠ "in_progress" ∧ job.status ≠ "revision_requested" then
    .error "Cannot deliver job with this status"
  else
    .ok { job with status := "delivered",
                   deliverableCount := job.deliverableCount + 1 }

/-- `job_service.request_revision`: client-only
`delivered → revision_requested`. -/
def requestRevision (job : Job) (clientAgentId : String) : Except String Job :=
  if job.clientAgentId ≠ clientAgentId then
    .error "Not authorized - you are not the client for this job"
  else if job.status ≠ "delivered" then
    .error "Cannot request revision for job with this status"
  else
    .ok { job with status := "revision_requested" }

/-- `job_service.complete_job`: client-only `delivered → completed`.  The
settlement amount is the job's aggregated LLM usage cost (passed here as
`usageCostUsd`, the result of `get_usage_summary`) clamped below by
`worker_min_payout_usd` and above by `client_max_budget_usd`; the escrow
released is `escrow_amount_usd` with the remainder refunded to the client.
Also updates the worker's reputation and both agents' lifetime counters.
A ledger failure inside `release_escrow` aborts the transaction. -/
def completeJob (job : Job) (client worker : Agent) (clientAgentId : String)
    (rating : ℕ) (review : Option String) (usageCostUsd : ℚ) :
    Except String (Job × Agent × Agent × List LedgerTransaction) :=
  if job.clientAgentId ≠ clientAgentId then
    .error "Not authorized - you are not the client for this job"
  else if job.status ≠ "delivered" then
    .error "Cannot complete job with this status. Job must be delivered first."
  else if ¬(1 ≤ rating ∧ rating ≤ 5) then
    .error "Rating must be between 1 and 5"
  else
    let payout0 := usageCostUsd
    let payout1 := if payout0 < job.workerMinPayoutUsd then job.workerMinPayoutUsd else payout0
    let payout := if payout1 > job.clientMaxBudgetUsd then job.clientMaxBudgetUsd else payout1
    match releaseEscrow client worker job.id payout job.escrowAmountUsd with
    | .error e => .error e
    | .ok (client', worker', entries) =>
      let job' := { job with
                     status := "completed"
                     rating := some rating
                     review := review
                     usageCostUsd := usageCostUsd
                     settlementAmountUsd := payout
                     escrowStatus := "released" }
      let worker'' := updateReputation worker' rating
      let worker''' := { worker'' with
                          jobsCompleted := worker''.jobsCompleted + 1
                          totalEarned := worker''.totalEarned + payout }
      let client'' := { client' with
                         jobsHired := client'.jobsHired + 1
                         totalSpent := client'.totalSpent + payout }
      .ok (job', client'', worker''', entries)

/-- `job_service.cancel_job`: client-only `pending → cancelled`; refunds the
full escrowed amount to the client. -/
def cancelJob (job : Job) (client : Agent) (clientAgentId : String) :
    Except String (Job × Agent × LedgerTransaction) :=
  if job.clientAgentId ≠ clientAgentId then
    .error "Not authorized - you are not the client for this job"
  else if job.status ≠ "pending" then
    .error "Cannot cancel job with this status. Only pending jobs can be cancelled."
  else
    match refundEscrow client job.id job.escrowAmountUsd with
    | .error e => .error e
    | .ok (client', entry) =>
      .ok ({ job with status := "cancelled", escrowStatus := "refunded" },
           client', entry)

/-- A service row, from `models/service.py`; only the columns the
peer-to-peer negotiation engine reads. -/
structure Service where
  agentId : String
  minPriceAgnt : ℚ
  maxPriceAgnt : ℚ
  deriving DecidableEq, Repr

/-- A negotiation row, from `models/negotiation.py`.  `expiresAt`,
`agreedAt` are abstract timestamps. -/
structure Negotiation where
  serviceId : String
  clientAgentId : String
  workerAgentId : String
  status : String
  currentPrice : ℚ
  currentProposer : String
  serviceMinPrice : ℚ
  serviceMaxPrice : ℚ
  clientMaxPrice : Option ℚ
  roundCount : ℕ
  maxRounds : ℕ
  expiresAt : ℚ
  agreedAt : Option ℚ
  deriving DecidableEq, Repr

/-- A negotiation offer row (append-only audit log), from
`models/negotiation.py` (`NegotiationOffer`). -/
structure NegotiationOffer where
  agentId : String
  agentRole : String
  action : String
  price : ℚ
  message : Option String
  deriving DecidableEq, Repr

/-- Python truthiness of an optional Decimal: `None` and `Decimal("0")` are
both falsy.  The source guards `client_max_price` and `counter_price` with
bare `if x:` checks, so a zero value behaves like an absent one. -/
def pyTruthy : Option ℚ → Bool
  | none => false
  | some q => q ≠ 0

/-- `p2p_negotiation_service.start_negotiation`: validates the initial offer
against the service bounds and the client's optional budget, checks the
client's available balance (non-reserving), and creates an `active`
negotiation at round 1 with a 24-hour expiry plus the first offer record. -/
def startNegotiation (service : Service) (serviceId : String)
    (client : Agent) (clientAgentId : String) (jobDescription : String)
    (initialOffer : ℚ) (clientMaxPrice : Option ℚ) (message : Option String)
    (now : ℚ) :
    Except String (Negotiation × NegotiationOffer) :=
  if initialOffer < service.minPriceAgnt then
    .error "Offer too low"
  else if initialOffer > service.maxPriceAgnt then
    .error "Offer too high"
  else if pyTruthy clientMaxPrice ∧ initialOffer > clientMaxPrice.getD 0 then
    .error "Initial offer exceeds your max budget"
  else if client.balance < initialOffer then
    .error "Insufficient balance"
  else
    .ok ({ serviceId := serviceId
           clientAgentId := clientAgentId
           workerAgentId := service.agentId
           status := "active"
           currentPrice := initialOffer
           currentProposer := "client"
           serviceMinPrice := service.minPriceAgnt
           serviceMaxPrice := service.maxPriceAgnt
           clientMaxPrice := clientMaxPrice
           roundCount := 1
           maxRounds := 5
           expiresAt := now + 24
           agreedAt := none },
         { agentId := clientAgentId
           agentRole := "client"
           action := "offer"
           price := initialOffer
           message := some (match message with
             | some m => if m = "" then "Initial offer for: " ++ jobDescription else m
             | none => "Initial offer for: " ++ jobDescription) })

/-- `p2p_negotiation_service.respond_to_negotiation`.  The result is the
negotiation row as committed by the call, the list of offer records appended
(empty or a singleton), and the outcome.  Two error paths commit state
changes before raising: observing `now > expires_at` commits
`status = "expired"`, and a counter that pushes `round_count` past
`max_rounds` commits the incremented `round_count` with
`status = "rejected"`; neither appends an offer record.  `agentBalance` is
the responding agent's available balance (looked up in the client-counter
branch). -/
def respondToNegotiation (n : Negotiation) (agentId : String)
    (agentBalance : ℚ) (action : String) (counterPrice : Option ℚ)
    (message : Option String) (now : ℚ) :
    Negotiation × List NegotiationOffer × Except String Unit :=
  if n.status ≠ "active" then
    (n, [], .error "Negotiation is not active, cannot respond")
  else if now > n.expiresAt then
    ({ n with status := "expired" }, [], .error "Negotiation has expired")
  else
    let role := if agentId = n.clientAgentId then some "client"
                else if agentId = n.workerAgentId then some "worker"
                else none
    match role with
    | none => (n, [], .error "You are not part of this negotiation")
    | some agentRole =>
      if n.currentProposer = agentRole then
        (n, [], .error "Waiting for other party to respond")
      else if action = "accept" then
        let n' := { n with status := "agreed", agreedAt := some now }
        (n', [{ agentId := agentId, agentRole := agentRole, action := action,
                price := n.currentPrice, message := message }], .ok ())
      else if action = "counter" then
        if ¬ pyTruthy counterPrice then
          (n, [], .error "Counter price required")
        else
          let cp := counterPrice.getD 0
          if cp < n.serviceMinPrice then
            (n, [], .error "Counter too low")
          else if cp > n.serviceMaxPrice then
            (n, [], .error "Counter too high")
          else if agentRole = "client" ∧ pyTruthy n.clientMaxPrice ∧
                   cp > n.clientMaxPrice.getD 0 then
            (n, [], .error "Counter exceeds your max budget")
          else if agentRole = "client" ∧ agentBalance < cp then
            (n, [], .error "Insufficient balance for counter offer")
          else
            let rc := n.roundCount + 1
            if rc > n.maxRounds then
              ({ n with roundCount := rc, status := "rejected" }, [],
               .error "Maximum negotiation rounds reached")
            else
              let n' := { n with roundCount := rc, currentPrice := cp,
                                 currentProposer := agentRole }
              (n', [{ agentId := agentId, agentRole := agentRole,
                      action := action, price := cp, message := message }],
               .ok ())
      else if action = "reject" then
        let n' := { n with status := "rejected" }
        (n', [{ agentId := agentId, agentRole := agentRole, action := action,
                price := n.currentPrice, message := message }], .ok ())
      else
        (n, [], .error "Invalid action. Must be accept, counter, or reject")

/-- The committed negotiation states reachable through the peer-to-peer
negotiation service: a state created by `start_negotiation`, or the state
committed by any `respond_to_negotiation` call (including its non-atomic
error paths) on a reachable state. -/
inductive NegReachable : Negotiation → Prop where
  | start (service : Service) (serviceId : String) (client : Agent)
      (clientAgentId jobDescription : String) (initialOffer : ℚ)
      (clientMaxPrice : Option ℚ) (message : Option String) (now : ℚ)
      (n : Negotiation) (off : NegotiationOffer)
      (h : startNegotiation service serviceId client clientAgentId
             jobDescription initialOffer clientMaxPrice message now =
           .ok (n, off)) :
      NegReachable n
  | step (n : Negotiation) (agentId : String) (agentBalance : ℚ)
      (action : String) (counterPrice : Option ℚ) (message : Option String)
      (now : ℚ) (n' : Negotiation) (offs : List NegotiationOffer)
      (out : Except String Unit)
      (hr : NegReachable n)
      (h : respondToNegotiation n agentId agentBalance action counterPrice
             message now = (n', offs, out)) :
      NegReachable n'

/-- Payment transaction statuses, from `models/payment_transaction.py`. -/
inductive TransactionStatus where
  | pending
  | verified
  | failed
  | credited
  deriving DecidableEq, Repr

/-- Payment transaction types, from `models/payment_transaction.py`. -/
inductive TransactionType where
  | topUp
  | p2p
  | refund
  deriving DecidableEq, Repr

/-- A payment transaction row, from `models/payment_transaction.py`;
timestamps are abstract. -/
structure PaymentTransaction where
  txHash : String
  amount : ℚ
  currency : String
  transactionType : TransactionType
  status : TransactionStatus
  initiatorAgentId : String
  recipientAgentId : Option String
  toAddress : String
  tokenAddress : String
  failureReason : Option String
  verifiedAt : Option ℚ
  creditedAt : Option ℚ
  deriving DecidableEq, Repr

/-- The committed database state the payment verifier reads and writes: the
`payment_transactions` table as a partial map keyed by the unique `tx_hash`
column, and the `agents` table as a partial map keyed by agent id. -/
structure PaymentState where
  txs : String → Option PaymentTransaction
  agents : String → Option Agent

/-- Insert or overwrite the transaction row stored under hash `h`. -/
def insertTx (st : PaymentState) (h : String) (tx : PaymentTransaction) :
    PaymentState :=
  { st with txs := fun k => if k = h then some tx else st.txs k }

/-- Delete the transaction row stored under hash `h`. -/
def deleteTx (st : PaymentState) (h : String) : PaymentState :=
  { st with txs := fun k => if k = h then none else st.txs k }

/-- Overwrite the agent row stored under id `aid`. -/
def setAgent (st : PaymentState) (aid : String) (a : Agent) : PaymentState :=
  { st with agents := fun k => if k = aid then some a else st.agents k }

/-- Domain errors surfaced by the payment verifier (`HTTPException`s in the
source), tagged by kind. -/
inductive VError where
  | alreadyProcessed
  | verificationFailed
  | notFound (msg : String)
  | badRequest (msg : String)
  | conflict (msg : String)
  deriving DecidableEq, Repr

/-- The HTTP status code each verifier error is surfaced as. -/
def errHttpCode : VError → ℕ
  | .alreadyProcessed => 409
  | .verificationFailed => 400
  | .notFound _ => 404
  | .badRequest _ => 400
  | .conflict _ => 409

/-- ASCII lowercasing of one character (`str.lower` on hex strings). -/
def asciiLower (c : Char) : Char :=
  if 65 ≤ c.toNat ∧ c.toNat ≤ 90 then Char.ofNat (c.toNat + 32) else c

/-- Whitespace as stripped by Python's `str.strip`. -/
def isPySpace (c : Char) : Bool := c = ' ' ∨ c = '\t' ∨ c = '\n' ∨ c = '\r'

/-- `str.strip()`: drop leading and trailing whitespace. -/
def pyStrip (l : List Char) : List Char :=
  ((l.dropWhile isPySpace).reverse.dropWhile isPySpace).reverse

/-- Whether the string begins with the two characters `0x`. -/
def hexTagged (s : String) : Bool :=
  match s.data with
  | '0' :: 'x' :: _ => true
  | _ => false

/-- Hash normalization at the top of `verify_and_credit_payment`:
`tx_hash.strip().lower()`, then prepend `0x` when missing. -/
def normalizeTxHash (s : String) : String :=
  let t : String := ⟨pyStrip (s.data.map asciiLower)⟩
  if hexTagged t then t else "0x" ++ t

/-- `_get_recipient_address`: the platform wallet for a top-up; for a
peer-to-peer payment, the recipient agent's stored wallet address, which
must exist and be non-empty. -/
def getRecipientAddress (st : PaymentState) (transactionType : TransactionType)
    (recipientAgentId : Option String) (platformWallet : String) :
    Except VError String :=
  match transactionType with
  | .topUp => .ok platformWallet
  | .p2p =>
    match recipientAgentId with
    | none => .error (.badRequest "P2P payment requires recipient_agent_id")
    | some rid =>
      match st.agents rid with
      | none => .error (.notFound "Recipient agent not found")
      | some ag =>
        match ag.walletAddress with
        | none => .error (.badRequest "Recipient agent has no wallet address configured")
        | some w =>
          if w = "" then
            .error (.badRequest "Recipient agent has no wallet address configured")
          else .ok w
  | .refund => .error (.badRequest "Unsupported transaction type")

/-- The agent credited for a payment (the head of `_complete_credit`): the
initiator for a top-up, the recipient for a peer-to-peer payment. -/
def creditTarget (tx : PaymentTransaction) : Except VError String :=
  match tx.transactionType with
  | .topUp => .ok tx.initiatorAgentId
  | .p2p =>
    match tx.recipientAgentId with
    | none => .error (.badRequest "P2P payment requires recipient_agent_id")
    | some rid => .ok rid
  | .refund => .error (.badRequest "Unsupported transaction type")

/-- `_complete_credit`: determine the credit target via `creditTarget`, add
the amount to that agent's balance, and mark the row `credited`.  When the
balance update raises (`update_balance` fails because the agent row does not
exist), the row is committed as `failed` with a `failure_reason` and the
error is surfaced. -/
def completeCredit (st : PaymentState) (h : String) (tx : PaymentTransaction)
    (now : ℚ) : PaymentState × Except VError (PaymentTransaction × Agent) :=
  match creditTarget tx with
  | .error e => (st, .error e)
  | .ok aid =>
    match st.agents aid with
    | none =>
      let tx' := { tx with status := .failed,
                           failureReason := some "Balance update failed: Agent not found" }
      (insertTx st h tx', .error (.notFound "Agent not found"))
    | some ag =>
      let ag' := { ag with balance := ag.balance + tx.amount }
      let tx' := { tx with status := .credited, creditedAt := some now }
      (insertTx (setAgent st aid ag') h tx', .ok (tx', ag'))

/-- The fresh-verification tail of `verify_and_credit_payment` (everything
after the replay check): resolve the recipient address, insert a `pending`
row, check the chain adapter's verdict (`chain_service.verify_transaction`,
passed in as the boolean `chainValid`), mark the row `verified`, and credit.
`duplicateRow` records that a row with this hash still exists (the replay
check fell through on a `pending` row), in which case inserting the new row
violates the unique index on `tx_hash` and the call dies with a conflict. -/
def verifyFreshPayment (st : PaymentState) (chainValid : Bool) (h : String)
    (amount : ℚ) (currency : String) (initiatorAgentId : String)
    (transactionType : TransactionType) (recipientAgentId : Option String)
    (tokenAddress : Option String) (platformWallet usdcAddress : String)
    (now : ℚ) (duplicateRow : Bool) :
    PaymentState × Except VError (PaymentTransaction × Agent) :=
  match getRecipientAddress st transactionType recipientAgentId platformWallet with
  | .error e => (st, .error e)
  | .ok addr =>
    if duplicateRow then
      (st, .error (.conflict "unique index violation on tx_hash"))
    else
      let tx : PaymentTransaction :=
        { txHash := h
          amount := amount
          currency := currency
          transactionType := transactionType
          status := .pending
          initiatorAgentId := initiatorAgentId
          recipientAgentId := recipientAgentId
          toAddress := addr
          tokenAddress := tokenAddress.getD usdcAddress
          failureReason := none
          verifiedAt := none
          creditedAt := none }
      let st1 := insertTx st h tx
      if ¬ chainValid then
        let tx' := { tx with
          status := .failed
          failureReason := some "Blockchain verification failed: transaction not found, amount mismatch, or invalid recipient" }
        (insertTx st1 h tx', .error .verificationFailed)
      else
        let tx' := { tx with status := .verified, verifiedAt := some now }
        completeCredit (insertTx st1 h tx') h tx' now

/-- `payment_verification_service.verify_and_credit_payment`: normalize the
hash, run the replay check (`credited` rows are rejected with HTTP 409,
`verified` rows re-enter the credit step, `failed` rows are deleted and
retried from scratch, and a leftover `pending` row makes the subsequent
insert die on the unique index), then verify and credit. -/
def verifyAndCreditPayment (st : PaymentState) (chainValid : Bool)
    (txHash : String) (amount : ℚ) (currency : String)
    (initiatorAgentId : String) (transactionType : TransactionType)
    (recipientAgentId : Option String) (tokenAddress : Option String)
    (platformWallet usdcAddress : String) (now : ℚ) :
    PaymentState × Except VError (PaymentTransaction × Agent) :=
  let h := normalizeTxHash txHash
  match st.txs h with
  | some tx =>
    match tx.status with
    | .credited => (st, .error .alreadyProcessed)
    | .verified => completeCredit st h tx now
    | .failed =>
      verifyFreshPayment (deleteTx st h) chainValid h amount currency
        initiatorAgentId transactionType recipientAgentId tokenAddress
        platformWallet usdcAddress now false
    | .pending =>
      verifyFreshPayment st chainValid h amount currency initiatorAgentId
        transactionType recipientAgentId tokenAddress platformWallet
        usdcAddress now true
  | none =>
    verifyFreshPayment st chainValid h amount currency initiatorAgentId
      transactionType recipientAgentId tokenAddress platformWallet
      usdcAddress now false

/-- Agent states reachable through the core balance operations exactly as
the source guards them: `update_balance` accepts an arbitrary signed delta
with no floor check, `lock_escrow` only checks `balance ≥ amount`,
`release_escrow` only checks `escrow_balance ≥ escrow_total`, and
`refund_escrow` only checks `escrow_balance ≥ amount`. -/
inductive AgentReach : Agent → Agent → Prop where
  | refl (a : Agent) : AgentReach a a
  | updateBal (a b : Agent) (amountDelta : ℚ) (h : AgentReach a b) :
      AgentReach a (updateBalance b amountDelta)
  | lock (a b b' : Agent) (jobId : String) (amount : ℚ) (currency : String)
      (e : LedgerTransaction) (h : AgentReach a b)
      (hop : lockEscrow b jobId amount currency = .ok (b', e)) :
      AgentReach a b'
  | refund (a b b' : Agent) (jobId : String) (amount : ℚ) (currency : String)
      (e : LedgerTransaction) (h : AgentReach a b)
      (hop : refundEscrow b jobId amount currency = .ok (b', e)) :
      AgentReach a b'
  | releaseClient (a b b' w w' : Agent) (jobId : String)
      (payoutAmount escrowTotal : ℚ) (currency : String)
      (es : List LedgerTransaction) (h : AgentReach a b)
      (hop : releaseEscrow b w jobId payoutAmount escrowTotal currency =
               .ok (b', w', es)) :
      AgentReach a b'
  | releaseWorker (a b b' c c' : Agent) (jobId : String)
      (payoutAmount escrowTotal : ℚ) (currency : String)
      (es : List LedgerTransaction) (h : AgentReach a b)
      (hop : releaseEscrow c b jobId payoutAmount escrowTotal currency =
               .ok (c', b', es)) :
      AgentReach a b'

/-- Agent states reachable through the core balance operations as their
in-repo callers invoke them: escrow amounts and payouts are non-negative
(job budgets and payment amounts are schema-validated to be positive), and
an `update_balance` delta is either a non-negative credit or a debit that a
prior balance check bounded by the available balance (the `POST /jobs`
handler debits only after checking `balance ≥ price`). -/
inductive AgentReachChecked : Agent → Agent → Prop where
  | refl (a : Agent) : AgentReachChecked a a
  | updateBal (a b : Agent) (amountDelta : ℚ) (h : AgentReachChecked a b)
      (hguard : 0 ≤ amountDelta ∨ 0 ≤ b.balance + amountDelta) :
      AgentReachChecked a (updateBalance b amountDelta)
  | lock (a b b' : Agent) (jobId : String) (amount : ℚ) (currency : String)
      (e : LedgerTransaction) (h : AgentReachChecked a b)
      (hguard : 0 ≤ amount)
      (hop : lockEscrow b jobId amount currency = .ok (b', e)) :
      AgentReachChecked a b'
  | refund (a b b' : Agent) (jobId : String) (amount : ℚ) (currency : String)
      (e : LedgerTransaction) (h : AgentReachChecked a b)
      (hguard : 0 ≤ amount)
      (hop : refundEscrow b jobId amount currency = .ok (b', e)) :
      AgentReachChecked a b'
  | releaseClient (a b b' w w' : Agent) (jobId : String)
      (payoutAmount escrowTotal : ℚ) (currency : String)
      (es : List LedgerTransaction) (h : AgentReachChecked a b)
      (hp : 0 ≤ payoutAmount) (ht : 0 ≤ escrowTotal)
      (hop : releaseEscrow b w jobId payoutAmount escrowTotal currency =
               .ok (b', w', es)) :
      AgentReachChecked a b'
  | releaseWorker (a b b' c c' : Agent) (jobId : String)
      (payoutAmount escrowTotal : ℚ) (currency : String)
      (es : List LedgerTransaction) (h : AgentReachChecked a b)
      (hp : 0 ≤ payoutAmount) (ht : 0 ≤ escrowTotal)
      (hop : releaseEscrow c b jobId payoutAmount escrowTotal currency =
               .ok (c', b', es)) :
      AgentReachChecked a b'

/-! Concrete fixtures used by counterexamples and witnesses. -/

/-- A client holding 3 AGNT in escrow and nothing available. -/
def cex3Client : Agent :=
  { balance := 0, escrowBalance := 3, walletAddress := none, jobsCompleted := 0,
    jobsHired := 0, totalEarned := 0, totalSpent := 0, reputationScore := 0 }

/-- A client with 10 available and 5 in escrow. -/
def cex3WClient : Agent :=
  { balance := 10, escrowBalance := 5, walletAddress := none, jobsCompleted := 0,
    jobsHired := 0, totalEarned := 0, totalSpent := 0, reputationScore := 0 }

/-- An agent with 10 available and nothing in escrow. -/
def cex8Agent : Agent :=
  { balance := 10, escrowBalance := 0, walletAddress := none, jobsCompleted := 0,
    jobsHired := 0, totalEarned := 0, totalSpent := 0, reputationScore := 0 }

/-- A delivered job whose locked price estimate is 3000, funded with an
escrow of 3000 (the client's maximum budget) and a worker minimum payout of
1000. -/
def c2Job : Job :=
  { id := "job-c2", clientAgentId := "client-1", workerAgentId := "worker-1",
    status := "delivered", priceUsd := 3000, pricePer1kTokensUsd := 0,
    workerMinPayoutUsd := 1000, clientMaxBudgetUsd := 3000,
    escrowStatus := "funded", escrowAmountUsd := 3000,
    settlementAmountUsd := 0, usageCostUsd := 0, rating := none,
    review := none, deliverableCount := 1 }

/-- The client of `c2Job` after funding: 7000 available, 3000 in escrow. -/
def c2Client : Agent :=
  { balance := 7000, escrowBalance := 3000, walletAddress := none,
    jobsCompleted := 0, jobsHired := 0, totalEarned := 0, totalSpent := 0,
    reputationScore := 0 }

/-- A service priced between 1000 and 5000 AGNT owned by `worker-1`. -/
def c5Service : Service :=
  { agentId := "worker-1", minPriceAgnt := 1000, maxPriceAgnt := 5000 }

/-- A client with 10000 AGNT available. -/
def c5Client : Agent :=
  { balance := 10000, escrowBalance := 0, walletAddress := none,
    jobsCompleted := 0, jobsHired := 0, totalEarned := 0, totalSpent := 0,
    reputationScore := 0 }

/-- The negotiation created by `c5Client` opening at 1500 with a stated
budget of 2000 on `c5Service` at time 0. -/
def c5Neg0 : Negotiation :=
  { serviceId := "svc-1", clientAgentId := "client-1",
    workerAgentId := "worker-1", status := "active", currentPrice := 1500,
    currentProposer := "client", serviceMinPrice := 1000,
    serviceMaxPrice := 5000, clientMaxPrice := some 2000, roundCount := 1,
    maxRounds := 5, expiresAt := 0 + 24, agreedAt := none }

/-- The first offer record of `c5Neg0`. -/
def c5Off0 : NegotiationOffer :=
  { agentId := "client-1", agentRole := "client", action := "offer",
    price := 1500,
    message := some ("Initial offer for: " ++ "translate a document") }

/-- `c5Neg0` after the worker counters at 3000 (above the client's stated
budget of 2000) at time 1. -/
def c5Neg1 : Negotiation :=
  { c5Neg0 with
    roundCount := 2, currentPrice := 3000, currentProposer := "worker" }

/-- An active negotiation whose expiry instant is time 10, awaiting the
worker's response. -/
def c9Neg : Negotiation :=
  { serviceId := "svc-9", clientAgentId := "client-1",
    workerAgentId := "worker-1", status := "active", currentPrice := 1500,
    currentProposer := "client", serviceMinPrice := 1000,
    serviceMaxPrice := 5000, clientMaxPrice := none, roundCount := 1,
    maxRounds := 5, expiresAt := 10, agreedAt := none }

/-- An active negotiation already at its round limit
(`round_count = max_rounds = 5`), awaiting the worker's response. -/
def c10Neg : Negotiation :=
  { serviceId := "svc-10", clientAgentId := "client-1",
    workerAgentId := "worker-1", status := "active", currentPrice := 1500,
    currentProposer := "client", serviceMinPrice := 1000,
    serviceMaxPrice := 5000, clientMaxPrice := none, roundCount := 5,
    maxRounds := 5, expiresAt := 100, agreedAt := none }

/-- A payment transaction already credited, stored under hash `0xaa`. -/
def c1CreditedTx : PaymentTransaction :=
  { txHash := "0xaa", amount := 100, currency := "USDC",
    transactionType := .topUp, status := .credited,
    initiatorAgentId := "alice", recipientAgentId := none,
    toAddress := "platform-wallet", tokenAddress := "usdc-addr",
    failureReason := none, verifiedAt := some 1, creditedAt := some 2 }

/-- A database holding only the credited transaction `c1CreditedTx` and the
agent `alice`. -/
def c1State : PaymentState :=
  { txs := fun k => if k = "0xaa" then some c1CreditedTx else none,
    agents := fun k => if k = "alice" then some cex8Agent else none }

/-- An empty database: no payment transactions, no agents. -/
def c6State : PaymentState :=
  { txs := fun _ => none, agents := fun _ => none }

/-- A top-up verification against `c6State`: the chain adapter accepts the
transaction, but the credit target `alice` has no agent row, so the balance
update raises inside `_complete_credit`. -/
def c6Call : PaymentState × Except VError (PaymentTransaction × Agent) :=
  verifyAndCreditPayment c6State true "0xbb" 5 "USDC" "alice" .topUp none
    none "platform-wallet" "usdc-addr" 7

/-- A payment transaction stuck at `verified` (a crashed credit), stored
under hash `0xcc`, whose credit target `alice` has no agent row. -/
def c6VerTx : PaymentTransaction :=
  { txHash := "0xcc", amount := 5, currency := "USDC",
    transactionType := .topUp, status := .verified,
    initiatorAgentId := "alice", recipientAgentId := none,
    toAddress := "platform-wallet", tokenAddress := "usdc-addr",
    failureReason := none, verifiedAt := some 6, creditedAt := none }

/-- A database holding only `c6VerTx` and no agents. -/
def c6VerState : PaymentState :=
  { txs := fun k => if k = "0xcc" then some c6VerTx else none,
    agents := fun _ => none }

/-- A pending job awaiting its worker. -/
def c7Job : Job :=
  { id := "job-c7", clientAgentId := "client-1", workerAgentId := "worker-1",
    status := "pending", priceUsd := 500, pricePer1kTokensUsd := 0,
    workerMinPayoutUsd := 0, clientMaxBudgetUsd := 500,
    escrowStatus := "funded", escrowAmountUsd := 500,
    settlementAmountUsd := 0, usageCostUsd := 0, rating := none,
    review := none, deliverableCount := 0 }

end AgentMarket

namespace AgentMarket

/-! Shared helper lemmas. -/

/-- Full characterization of a successful `release_escrow`. -/
theorem releaseEscrow_spec (client worker : Agent) (jobId : String)
    (payoutAmount escrowTotal : ℚ) (cur : String)
    (h : escrowTotal ≤ client.escrowBalance) :
    releaseEscrow client worker jobId payoutAmount escrowTotal cur =
      .ok ({ client with
              escrowBalance := client.escrowBalance - escrowTotal,
              balance := client.balance +
                (escrowTotal - min payoutAmount escrowTotal) },
           { worker with
              balance := worker.balance + min payoutAmount escrowTotal },
           if 0 < escrowTotal - min payoutAmount escrowTotal then
             [{ jobId := jobId, agentId := "client",
                counterpartyAgentId := some "worker",
                amount := min payoutAmount escrowTotal,
                currency := cur, transactionType := .escrowRelease },
              { jobId := jobId, agentId := "client",
                counterpartyAgentId := none,
                amount := escrowTotal - min payoutAmount escrowTotal,
                currency := cur, transactionType := .escrowRefund }]
           else
             [{ jobId := jobId, agentId := "client",
                counterpartyAgentId := some "worker",
                amount := min payoutAmount escrowTotal,
                currency := cur, transactionType := .escrowRelease }]) := by
  have hnot : ¬ (client.escrowBalance < escrowTotal) := not_lt.mpr h
  have hmin : (if payoutAmount > escrowTotal then escrowTotal else payoutAmount) =
      min payoutAmount escrowTotal := by
    rcases le_or_lt payoutAmount escrowTotal with hle | hlt
    · rw [if_neg (not_lt.mpr hle), min_eq_left hle]
    · rw [if_pos hlt, min_eq_right (le_of_lt hlt)]
  have hr : 0 ≤ escrowTotal - min payoutAmount escrowTotal :=
    sub_nonneg.mpr (min_le_right _ _)
  have hbal : (if 0 < escrowTotal - min payoutAmount escrowTotal then
        client.balance + (escrowTotal - min payoutAmount escrowTotal)
      else client.balance) =
      client.balance + (escrowTotal - min payoutAmount escrowTotal) := by
    rcases eq_or_lt_of_le hr with he | hlt
    · rw [if_neg (by rw [← he]; exact lt_irrefl 0), ← he, add_zero]
    · rw [if_pos hlt]
  unfold releaseEscrow
  rw [if_neg hnot]
  simp only [gt_iff_lt, hmin]
  rw [hbal]

/-- Inversion of a successful `lock_escrow`: the balance check held and the
client record moved `amount` from available into escrow. -/
theorem lockEscrow_ok_inv (client : Agent) (jobId : String) (amount : ℚ)
    (cur : String) (client' : Agent) (e : LedgerTransaction)
    (hop : lockEscrow client jobId amount cur = .ok (client', e)) :
    amount ≤ client.balance ∧
    client' = { client with
                balance := client.balance - amount,
                escrowBalance := client.escrowBalance + amount } := by
  by_cases hc : client.balance < amount
  · unfold lockEscrow at hop
    rw [if_pos hc] at hop
    exact Except.noConfusion hop
  · unfold lockEscrow at hop
    rw [if_neg hc] at hop
    rw [Except.ok.injEq, Prod.mk.injEq] at hop
    exact ⟨not_lt.mp hc, hop.1.symm⟩

/-- Inversion of a successful `refund_escrow`: the escrow check held and the
client record moved `amount` from escrow back to available. -/
theorem refundEscrow_ok_inv (client : Agent) (jobId : String) (amount : ℚ)
    (cur : String) (client' : Agent) (e : LedgerTransaction)
    (hop : refundEscrow client jobId amount cur = .ok (client', e)) :
    amount ≤ client.escrowBalance ∧
    client' = { client with
                escrowBalance := client.escrowBalance - amount,
                balance := client.balance + amount } := by
  by_cases hc : client.escrowBalance < amount
  · unfold refundEscrow at hop
    rw [if_pos hc] at hop
    exact Except.noConfusion hop
  · unfold refundEscrow at hop
    rw [if_neg hc] at hop
    rw [Except.ok.injEq, Prod.mk.injEq] at hop
    exact ⟨not_lt.mp hc, hop.1.symm⟩

/-- Inversion of a successful `release_escrow`: the escrow check held, the
client lost `escrow_total` from escrow and gained the remainder, the worker
gained the clamped payout. -/
theorem releaseEscrow_ok_inv (client worker : Agent) (jobId : String)
    (p t : ℚ) (cur : String) (client' worker' : Agent)
    (es : List LedgerTransaction)
    (hop : releaseEscrow client worker jobId p t cur =
             .ok (client', worker', es)) :
    t ≤ client.escrowBalance ∧
    client' = { client with
                escrowBalance := client.escrowBalance - t,
                balance := client.balance + (t - min p t) } ∧
    worker' = { worker with balance := worker.balance + min p t } := by
  by_cases hc : client.escrowBalance < t
  · unfold releaseEscrow at hop
    rw [if_pos hc] at hop
    exact Except.noConfusion hop
  · rw [releaseEscrow_spec client worker jobId p t cur (not_lt.mp hc)] at hop
    rw [Except.ok.injEq, Prod.mk.injEq, Prod.mk.injEq] at hop
    exact ⟨not_lt.mp hc, hop.1.symm, hop.2.1.symm⟩

/-- Case analysis on the negotiation state committed by one
`respond_to_negotiation` call: it is unchanged, expired (only when observed
strictly after the deadline), agreed, rejected, round-limit rejected, or
updated by an in-bounds counter-offer (whose price was checked against the
client's budget only when the client proposed it). -/
theorem respond_cases (n : Negotiation) (aid : String) (bal : ℚ)
    (action : String) (cp : Option ℚ) (msg : Option String) (now : ℚ) :
    (respondToNegotiation n aid bal action cp msg now).1 = n ∨
    (now > n.expiresAt ∧
      (respondToNegotiation n aid bal action cp msg now).1 =
        { n with status := "expired" }) ∨
    (respondToNegotiation n aid bal action cp msg now).1 =
      { n with status := "agreed", agreedAt := some now } ∨
    (respondToNegotiation n aid bal action cp msg now).1 =
      { n with status := "rejected" } ∨
    (respondToNegotiation n aid bal action cp msg now).1 =
      { n with roundCount := n.roundCount + 1, status := "rejected" } ∨
    (∃ cpv role,
      cp = some cpv ∧
      n.serviceMinPrice ≤ cpv ∧ cpv ≤ n.serviceMaxPrice ∧
      n.currentProposer ≠ role ∧
      (role = "client" ∨ role = "worker") ∧
      (role = "client" →
        ∀ c, n.clientMaxPrice = some c → c ≠ 0 → cpv ≤ c) ∧
      (respondToNegotiation n aid bal action cp msg now).1 =
        { n with
          roundCount := n.roundCount + 1, currentPrice := cpv,
          currentProposer := role }) := by
  unfold respondToNegotiation
  by_cases h1 : n.status ≠ "active"
  · rw [if_pos h1]
    exact Or.inl rfl
  rw [if_neg h1]
  by_cases h2 : now > n.expiresAt
  · rw [if_pos h2]
    exact Or.inr (Or.inl ⟨h2, rfl⟩)
  rw [if_neg h2]
  by_cases h3 : aid = n.clientAgentId
  · rw [if_pos h3]
    dsimp only
    by_cases h4 : n.currentProposer = "client"
    · rw [if_pos h4]
      exact Or.inl rfl
    rw [if_neg h4]
    by_cases h5 : action = "accept"
    · rw [if_pos h5]
      exact Or.inr (Or.inr (Or.inl rfl))
    rw [if_neg h5]
    by_cases h6 : action = "counter"
    · rw [if_pos h6]
      by_cases hA : pyTruthy cp = true
      swap
      · rw [if_pos hA]
        exact Or.inl rfl
      rw [if_neg (not_not_intro hA)]
      split_ifs with hB hC hD hE hF
      · exact Or.inl rfl
      · exact Or.inl rfl
      · exact Or.inl rfl
      · exact Or.inl rfl
      · exact Or.inr (Or.inr (Or.inr (Or.inr (Or.inl rfl))))
      · refine Or.inr (Or.inr (Or.inr (Or.inr (Or.inr ?_))))
        match hcp : cp with
        | none => simp [pyTruthy] at hA
        | some q =>
          refine ⟨q, "client", rfl, ?_, ?_, h4, Or.inl rfl, ?_, rfl⟩
          · simpa using not_lt.mp hB
          · simpa using not_lt.mp hC
          · intro _ c hcm hcne
            have hcv : ¬(((some q).getD 0 : ℚ) > n.clientMaxPrice.getD 0) :=
              fun hgt => hD ⟨rfl, by simp [pyTruthy, hcm, hcne], hgt⟩
            have := not_lt.mp hcv
            rw [hcm] at this
            simpa using this
    rw [if_neg h6]
    by_cases h7 : action = "reject"
    · rw [if_pos h7]
      exact Or.inr (Or.inr (Or.inr (Or.inl rfl)))
    · rw [if_neg h7]
      exact Or.inl rfl
  rw [if_neg h3]
  by_cases h3w : aid = n.workerAgentId
  · rw [if_pos h3w]
    dsimp only
    by_cases h4 : n.currentProposer = "worker"
    · rw [if_pos h4]
      exact Or.inl rfl
    rw [if_neg h4]
    by_cases h5 : action = "accept"
    · rw [if_pos h5]
      exact Or.inr (Or.inr (Or.inl rfl))
    rw [if_neg h5]
    by_cases h6 : action = "counter"
    · rw [if_pos h6]
      by_cases hA : pyTruthy cp = true
      swap
      · rw [if_pos hA]
        exact Or.inl rfl
      rw [if_neg (not_not_intro hA)]
      split_ifs with hB hC hD hE hF
      · exact Or.inl rfl
      · exact Or.inl rfl
      · exact absurd hD.1 (by decide)
      · exact absurd hE.1 (by decide)
      · exact Or.inr (Or.inr (Or.inr (Or.inr (Or.inl rfl))))
      · refine Or.inr (Or.inr (Or.inr (Or.inr (Or.inr ?_))))
        match hcp : cp with
        | none => simp [pyTruthy] at hA
        | some q =>
          refine ⟨q, "worker", rfl, ?_, ?_, h4, Or.inr rfl, ?_, rfl⟩
          · simpa using not_lt.mp hB
          · simpa using not_lt.mp hC
          · intro hcw
            exact absurd hcw (by decide)
    rw [if_neg h6]
    by_cases h7 : action = "reject"
    · rw [if_pos h7]
      exact Or.inr (Or.inr (Or.inr (Or.inl rfl)))
    · rw [if_neg h7]
      exact Or.inl rfl
  · rw [if_neg h3w]
    dsimp only
    exact Or.inl rfl

/-- The exact result of a `counter` response that passes the price and
balance checks: the round counter is incremented, and the call either
commits `rejected` with an error and no offer record (round limit hit) or
commits the new price with exactly one offer record. -/
theorem respond_counter_spec (n : Negotiation) (aid : String) (bal : ℚ)
    (cpv : ℚ) (msg : Option String) (now : ℚ) (role : String)
    (hact : n.status = "active") (hexp : ¬(now > n.expiresAt))
    (hrq : (if aid = n.clientAgentId then some "client"
            else if aid = n.workerAgentId then some "worker"
            else none) = some role)
    (hprop : ¬(n.currentProposer = role))
    (hcp0 : cpv ≠ 0)
    (hlo : ¬(cpv < n.serviceMinPrice)) (hhi : ¬(cpv > n.serviceMaxPrice))
    (hbud : ¬(role = "client" ∧ pyTruthy n.clientMaxPrice ∧
              cpv > n.clientMaxPrice.getD 0))
    (hbal : ¬(role = "client" ∧ bal < cpv)) :
    respondToNegotiation n aid bal "counter" (some cpv) msg now =
      if n.roundCount + 1 > n.maxRounds then
        ({ n with roundCount := n.roundCount + 1, status := "rejected" }, [],
         .error "Maximum negotiation rounds reached")
      else
        ({ n with
           roundCount := n.roundCount + 1, currentPrice := cpv,
           currentProposer := role },
         [{ agentId := aid, agentRole := role, action := "counter",
            price := cpv, message := msg }],
         .ok ()) := by
  unfold respondToNegotiation
  rw [if_neg (not_not_intro hact), if_neg hexp, hrq]
  dsimp only
  rw [if_neg hprop]
  rw [if_neg (show ¬(("counter" : String) = "accept") by decide), if_pos rfl]
  rw [if_neg (not_not_intro
    (show pyTruthy (some cpv) = true by simp [pyTruthy, hcp0]))]
  simp only [Option.getD_some]
  rw [if_neg hlo, if_neg hhi, if_neg hbud, if_neg hbal]

/-- Inversion of a successful `start_negotiation`: the offer respected the
service bounds and any truthy client budget, and the created negotiation is
the expected active round-1 record. -/
theorem startNegotiation_ok_inv (service : Service) (serviceId : String)
    (client : Agent) (clientAgentId jobDescription : String)
    (initialOffer : ℚ) (clientMaxPrice : Option ℚ) (message : Option String)
    (now : ℚ) (n : Negotiation) (off : NegotiationOffer)
    (h : startNegotiation service serviceId client clientAgentId
      jobDescription initialOffer clientMaxPrice message now = .ok (n, off)) :
    service.minPriceAgnt ≤ initialOffer ∧
    initialOffer ≤ service.maxPriceAgnt ∧
    (∀ c, clientMaxPrice = some c → c ≠ 0 → initialOffer ≤ c) ∧
    n = { serviceId := serviceId, clientAgentId := clientAgentId,
          workerAgentId := service.agentId, status := "active",
          currentPrice := initialOffer, currentProposer := "client",
          serviceMinPrice := service.minPriceAgnt,
          serviceMaxPrice := service.maxPriceAgnt,
          clientMaxPrice := clientMaxPrice, roundCount := 1, maxRounds := 5,
          expiresAt := now + 24, agreedAt := none } := by
  unfold startNegotiation at h
  split_ifs at h with h1 h2 h3 h4
  rw [Except.ok.injEq, Prod.mk.injEq] at h
  refine ⟨not_lt.mp h1, not_lt.mp h2, ?_, h.1.symm⟩
  intro c hcm hcne
  by_contra hgt
  exact h3 ⟨by simp [pyTruthy, hcm, hcne],
            by rw [hcm]; simpa using not_le.mp hgt⟩

/-- `update_reputation` touches only the reputation score. -/
theorem updateReputation_balance (w : Agent) (r : ℕ) :
    (updateReputation w r).balance = w.balance := by
  unfold updateReputation
  split_ifs <;> rfl

/-- `update_reputation` leaves the escrow balance unchanged. -/
theorem updateReputation_escrow (w : Agent) (r : ℕ) :
    (updateReputation w r).escrowBalance = w.escrowBalance := by
  unfold updateReputation
  split_ifs <;> rfl

/-- `update_reputation` leaves the completed-jobs counter unchanged. -/
theorem updateReputation_jobs (w : Agent) (r : ℕ) :
    (updateReputation w r).jobsCompleted = w.jobsCompleted := by
  unfold updateReputation
  split_ifs <;> rfl

/-- `update_reputation` leaves the lifetime earnings unchanged. -/
theorem updateReputation_earned (w : Agent) (r : ℕ) :
    (updateReputation w r).totalEarned = w.totalEarned := by
  unfold updateReputation
  split_ifs <;> rfl

/-- A successful `_complete_credit` stores the transaction under the given
hash with status `credited`. -/
theorem completeCredit_ok_inv (st : PaymentState) (h : String)
    (tx : PaymentTransaction) (now : ℚ) (st₁ : PaymentState)
    (r : PaymentTransaction × Agent)
    (hc : completeCredit st h tx now = (st₁, .ok r)) :
    st₁.txs h = some r.1 ∧ r.1.status = .credited := by
  unfold completeCredit at hc
  cases htgt : creditTarget tx with
  | error e =>
    rw [htgt] at hc
    dsimp only at hc
    rw [Prod.mk.injEq] at hc
    exact Except.noConfusion hc.2
  | ok aid =>
    rw [htgt] at hc
    dsimp only at hc
    cases hag : st.agents aid with
    | none =>
      rw [hag] at hc
      dsimp only at hc
      rw [Prod.mk.injEq] at hc
      exact Except.noConfusion hc.2
    | some ag =>
      rw [hag] at hc
      dsimp only at hc
      rw [Prod.mk.injEq] at hc
      obtain ⟨h1, h2⟩ := hc
      rw [Except.ok.injEq] at h2
      subst h1
      subst h2
      constructor
      · unfold insertTx
        simp
      · rfl

/-- A successful fresh verification stores the transaction under the given
hash with status `credited`. -/
theorem verifyFreshPayment_ok_inv (st : PaymentState) (cv : Bool)
    (h : String) (amount : ℚ) (currency ini : String)
    (tt : TransactionType) (rec tok : Option String) (pw usdc : String)
    (now : ℚ) (dup : Bool) (st₁ : PaymentState)
    (r : PaymentTransaction × Agent)
    (hc : verifyFreshPayment st cv h amount currency ini tt rec tok pw usdc
            now dup = (st₁, .ok r)) :
    st₁.txs h = some r.1 ∧ r.1.status = .credited := by
  unfold verifyFreshPayment at hc
  cases hra : getRecipientAddress st tt rec pw with
  | error e =>
    rw [hra] at hc
    dsimp only at hc
    rw [Prod.mk.injEq] at hc
    exact Except.noConfusion hc.2
  | ok addr =>
    rw [hra] at hc
    dsimp only at hc
    cases dup with
    | true =>
      rw [if_pos rfl] at hc
      rw [Prod.mk.injEq] at hc
      exact Except.noConfusion hc.2
    | false =>
      rw [if_neg (by simp)] at hc
      cases cv with
      | false =>
        rw [if_pos (by simp)] at hc
        rw [Prod.mk.injEq] at hc
        exact Except.noConfusion hc.2
      | true =>
        rw [if_neg (by simp)] at hc
        exact completeCredit_ok_inv _ _ _ _ _ _ hc

/-- A successful `verify_and_credit_payment` stores the transaction under
the normalized hash with status `credited`. -/
theorem verifyAndCreditPayment_ok_inv (st : PaymentState) (cv : Bool)
    (txHash : String) (amount : ℚ) (currency ini : String)
    (tt : TransactionType) (rec tok : Option String) (pw usdc : String)
    (now : ℚ) (st₁ : PaymentState) (r : PaymentTransaction × Agent)
    (hc : verifyAndCreditPayment st cv txHash amount currency ini tt rec tok
            pw usdc now = (st₁, .ok r)) :
    st₁.txs (normalizeTxHash txHash) = some r.1 ∧ r.1.status = .credited := by
  unfold verifyAndCreditPayment at hc
  dsimp only at hc
  cases hfind : st.txs (normalizeTxHash txHash) with
  | none =>
    rw [hfind] at hc
    dsimp only at hc
    exact verifyFreshPayment_ok_inv _ _ _ _ _ _ _ _ _ _ _ _ _ _ _ hc
  | some tx =>
    rw [hfind] at hc
    dsimp only at hc
    cases htx : tx.status with
    | pending =>
      rw [htx] at hc
      dsimp only at hc
      exact verifyFreshPayment_ok_inv _ _ _ _ _ _ _ _ _ _ _ _ _ _ _ hc
    | verified =>
      rw [htx] at hc
      dsimp only at hc
      exact completeCredit_ok_inv _ _ _ _ _ _ hc
    | failed =>
      rw [htx] at hc
      dsimp only at hc
      exact verifyFreshPayment_ok_inv _ _ _ _ _ _ _ _ _ _ _ _ _ _ _ hc
    | credited =>
      rw [htx] at hc
      dsimp only at hc
      rw [Prod.mk.injEq] at hc
      exact Except.noConfusion hc.2

/-- C3.  The claim says `release_escrow` requires
`0 ≤ payout_amount ≤ escrow_total` and fails without changing any balance
when the precondition is violated.  Concretely, with `payout_amount = 5 >
3 = escrow_total` and a client holding exactly 3 in escrow, the call does
not fail: it clamps the payout to the escrow total and pays the worker 3. -/
theorem c3_release_overpayout_counterexample :
    releaseEscrow cex3Client (newAgent none) "job-1" 5 3 =
      .ok ({ cex3Client with escrowBalance := 0 },
           { newAgent none with balance := 3 },
           [{ jobId := "job-1", agentId := "client",
              counterpartyAgentId := some "worker", amount := 3,
              currency := "USDC", transactionType := .escrowRelease }]) := by
  unfold releaseEscrow cex3Client newAgent
  norm_num

/-- C3 (amended).  `release_escrow` requires only
`client.escrow_balance ≥ escrow_total`, failing without any balance change
otherwise; a `payout_amount` above `escrow_total` is clamped down to
`escrow_total` instead of failing (and a negative `payout_amount` is not
rejected).  On success it decrements the client's escrow by `escrow_total`,
increments the worker's available balance by the clamped payout, increments
the client's available balance by the remainder, and writes an
`escrow_release` entry plus an `escrow_refund` entry iff the remainder is
positive. -/
theorem c3_release_escrow_amended (client worker : Agent) (jobId : String)
    (payoutAmount escrowTotal : ℚ) :
    (client.escrowBalance < escrowTotal →
      releaseEscrow client worker jobId payoutAmount escrowTotal =
        .error "Insufficient escrow balance to release")
    ∧ (escrowTotal ≤ client.escrowBalance →
      releaseEscrow client worker jobId payoutAmount escrowTotal =
        .ok ({ client with
                escrowBalance := client.escrowBalance - escrowTotal,
                balance := client.balance +
                  (escrowTotal - min payoutAmount escrowTotal) },
             { worker with
                balance := worker.balance + min payoutAmount escrowTotal },
             if 0 < escrowTotal - min payoutAmount escrowTotal then
               [{ jobId := jobId, agentId := "client",
                  counterpartyAgentId := some "worker",
                  amount := min payoutAmount escrowTotal,
                  currency := "USDC", transactionType := .escrowRelease },
                { jobId := jobId, agentId := "client",
                  counterpartyAgentId := none,
                  amount := escrowTotal - min payoutAmount escrowTotal,
                  currency := "USDC", transactionType := .escrowRefund }]
             else
               [{ jobId := jobId, agentId := "client",
                  counterpartyAgentId := some "worker",
                  amount := min payoutAmount escrowTotal,
                  currency := "USDC", transactionType := .escrowRelease }])) := by
  constructor
  · intro h
    unfold releaseEscrow
    rw [if_pos h]
  · intro h
    exact releaseEscrow_spec client worker jobId payoutAmount escrowTotal "USDC" h

/-- C3 amended claim at a concrete input: escrow 5 covers the total 3, the
payout 2 reaches the worker, the remainder 1 returns to the client. -/
theorem c3_release_escrow_amended_witness :
    releaseEscrow cex3WClient (newAgent none) "job-2" 2 3 =
      .ok ({ cex3WClient with
              escrowBalance := cex3WClient.escrowBalance - 3,
              balance := cex3WClient.balance + (3 - min 2 3) },
           { newAgent none with
              balance := (newAgent none).balance + min 2 3 },
           if 0 < (3 : ℚ) - min 2 3 then
             [{ jobId := "job-2", agentId := "client",
                counterpartyAgentId := some "worker", amount := min 2 3,
                currency := "USDC", transactionType := .escrowRelease },
              { jobId := "job-2", agentId := "client",
                counterpartyAgentId := none, amount := (3 : ℚ) - min 2 3,
                currency := "USDC", transactionType := .escrowRefund }]
           else
             [{ jobId := "job-2", agentId := "client",
                counterpartyAgentId := some "worker", amount := min 2 3,
                currency := "USDC", transactionType := .escrowRelease }]) :=
  (c3_release_escrow_amended cex3WClient (newAgent none) "job-2" 2 3).2
    (by decide)

/-- C8.  Locking `x` into escrow and then refunding `x` returns the agent to
its exact prior state, and the two ledger entries written (one
`escrow_lock`, one `escrow_refund`, both of amount `x`) have balance deltas
summing to zero. -/
theorem c8_lock_refund_roundtrip (a : Agent) (jobId : String) (x : ℚ)
    (hx : 0 < x) (hav : x ≤ a.balance) (hesc : 0 ≤ a.escrowBalance) :
    ∃ a1 e1 a2 e2,
      lockEscrow a jobId x = .ok (a1, e1) ∧
      refundEscrow a1 jobId x = .ok (a2, e2) ∧
      a2 = a ∧
      e1.transactionType = .escrowLock ∧ e1.amount = x ∧
      e2.transactionType = .escrowRefund ∧ e2.amount = x ∧
      entryBalanceDelta e1 + entryBalanceDelta e2 = (0, 0) := by
  have h1 : ¬ (a.balance < x) := not_lt.mpr hav
  have h2 : ¬ (a.escrowBalance + x < x) := by
    intro hcon
    nlinarith
  refine ⟨{ a with balance := a.balance - x, escrowBalance := a.escrowBalance + x },
          { jobId := jobId, agentId := "client", counterpartyAgentId := none,
            amount := x, currency := "USDC", transactionType := .escrowLock },
          a,
          { jobId := jobId, agentId := "client", counterpartyAgentId := none,
            amount := x, currency := "USDC", transactionType := .escrowRefund },
          ?_, ?_, rfl, rfl, rfl, rfl, rfl, ?_⟩
  · unfold lockEscrow
    rw [if_neg h1]
  · unfold refundEscrow
    split_ifs with hc
    · exact absurd hc h2
    · obtain ⟨b, e, w, jc, jh, te, ts, rs⟩ := a
      simp only [Except.ok.injEq, Prod.mk.injEq, Agent.mk.injEq, and_true, true_and]
      constructor <;> ring
  · have d1 : entryBalanceDelta
        { jobId := jobId, agentId := "client", counterpartyAgentId := none,
          amount := x, currency := "USDC", transactionType := .escrowLock } =
        (-x, x) := rfl
    have d2 : entryBalanceDelta
        { jobId := jobId, agentId := "client", counterpartyAgentId := none,
          amount := x, currency := "USDC", transactionType := .escrowRefund } =
        (x, -x) := rfl
    rw [d1, d2, Prod.mk_add_mk]
    simp only [Prod.mk.injEq]
    exact ⟨by ring, by ring⟩

/-- C8 at a concrete input: balance 10, escrow 0, amount 4. -/
theorem c8_lock_refund_roundtrip_witness :
    (0 : ℚ) < 4 ∧
    ∃ a1 e1 a2 e2,
      lockEscrow cex8Agent "j" 4 = .ok (a1, e1) ∧
      refundEscrow a1 "j" 4 = .ok (a2, e2) ∧
      a2 = cex8Agent ∧
      e1.transactionType = .escrowLock ∧ e1.amount = 4 ∧
      e2.transactionType = .escrowRefund ∧ e2.amount = 4 ∧
      entryBalanceDelta e1 + entryBalanceDelta e2 = (0, 0) :=
  ⟨by norm_num,
   c8_lock_refund_roundtrip cex8Agent "j" 4 (by norm_num) (by decide) (by decide)⟩

/-- C2.  The claim says completing a delivered job releases escrow with
`payout = price` and `escrow_total = price`, with a zero refund remainder.
Concretely, on a delivered job with locked price estimate 3000, escrow 3000,
worker minimum payout 1000 and zero recorded usage cost, `complete_job`
pays the worker 1000 (the clamped usage cost), not the price 3000, and
refunds a positive remainder of 2000 to the client. -/
theorem c2_complete_payout_counterexample :
    completeJob c2Job c2Client (newAgent none) "client-1" 5 none 0 =
      .ok ({ c2Job with
             status := "completed", rating := some 5,
             settlementAmountUsd := 1000, escrowStatus := "released" },
           { balance := 9000, escrowBalance := 0, walletAddress := none,
             jobsCompleted := 0, jobsHired := 1, totalEarned := 0,
             totalSpent := 1000, reputationScore := 0 },
           { balance := 1000, escrowBalance := 0, walletAddress := none,
             jobsCompleted := 1, jobsHired := 0, totalEarned := 1000,
             totalSpent := 0, reputationScore := 5 },
           [{ jobId := "job-c2", agentId := "client",
              counterpartyAgentId := some "worker", amount := 1000,
              currency := "USDC", transactionType := .escrowRelease },
            { jobId := "job-c2", agentId := "client",
              counterpartyAgentId := none, amount := 2000,
              currency := "USDC", transactionType := .escrowRefund }])
    ∧ c2Job.priceUsd = 3000 ∧ ((1000 : ℚ) ≠ 3000) ∧ ((2000 : ℚ) ≠ 0) := by
  refine ⟨?_, rfl, by norm_num, by norm_num⟩
  unfold completeJob releaseEscrow updateReputation c2Job c2Client newAgent
  norm_num

/-- C2 (amended).  `complete_job` on a delivered job releases the full
escrowed amount (`escrow_amount_usd`, the client's maximum budget locked at
creation), but the worker's payout is the job's aggregated usage cost
clamped into `[worker_min_payout_usd, client_max_budget_usd]`, not the
job's locked price; the remainder `escrow_amount − payout` is refunded to
the client and is zero only when the clamped payout equals the escrowed
amount. -/
theorem c2_complete_release_amended (job : Job) (client worker : Agent)
    (rating : ℕ) (review : Option String) (usageCostUsd : ℚ)
    (hst : job.status = "delivered")
    (hr1 : 1 ≤ rating) (hr5 : rating ≤ 5)
    (hesc : job.escrowAmountUsd ≤ client.escrowBalance)
    (hbudget : job.escrowAmountUsd = job.clientMaxBudgetUsd) :
    ∃ job' client' worker' entries,
      completeJob job client worker job.clientAgentId rating review
          usageCostUsd = .ok (job', client', worker', entries) ∧
      job'.settlementAmountUsd =
        min (max usageCostUsd job.workerMinPayoutUsd) job.clientMaxBudgetUsd ∧
      job'.status = "completed" ∧ job'.escrowStatus = "released" ∧
      worker'.balance = worker.balance + job'.settlementAmountUsd ∧
      client'.escrowBalance = client.escrowBalance - job.escrowAmountUsd ∧
      client'.balance = client.balance +
        (job.escrowAmountUsd - job'.settlementAmountUsd) ∧
      worker'.jobsCompleted = worker.jobsCompleted + 1 ∧
      client'.jobsHired = client.jobsHired + 1 := by
  have hpay1 : (if usageCostUsd < job.workerMinPayoutUsd then
      job.workerMinPayoutUsd else usageCostUsd) =
      max usageCostUsd job.workerMinPayoutUsd := by
    rcases lt_or_le usageCostUsd job.workerMinPayoutUsd with hlt | hle
    · rw [if_pos hlt, max_eq_right (le_of_lt hlt)]
    · rw [if_neg (not_lt.mpr hle), max_eq_left hle]
  have hpay2 : (if max usageCostUsd job.workerMinPayoutUsd >
      job.clientMaxBudgetUsd then job.clientMaxBudgetUsd
      else max usageCostUsd job.workerMinPayoutUsd) =
      min (max usageCostUsd job.workerMinPayoutUsd) job.clientMaxBudgetUsd := by
    rcases le_or_lt (max usageCostUsd job.workerMinPayoutUsd)
        job.clientMaxBudgetUsd with hle | hlt
    · rw [if_neg (not_lt.mpr hle), min_eq_left hle]
    · rw [if_pos hlt, min_eq_right (le_of_lt hlt)]
  have hle2 : min (max usageCostUsd job.workerMinPayoutUsd)
      job.clientMaxBudgetUsd ≤ job.escrowAmountUsd := by
    rw [hbudget]; exact min_le_right _ _
  have hminE : min (min (max usageCostUsd job.workerMinPayoutUsd)
      job.clientMaxBudgetUsd) job.escrowAmountUsd =
      min (max usageCostUsd job.workerMinPayoutUsd) job.clientMaxBudgetUsd :=
    min_eq_left hle2
  simp only [completeJob]
  rw [if_neg (not_not_intro rfl), hst]
  rw [if_neg (not_not_intro rfl), if_neg (not_not_intro ⟨hr1, hr5⟩)]
  rw [hpay1, hpay2,
      releaseEscrow_spec client worker job.id
        (min (max usageCostUsd job.workerMinPayoutUsd) job.clientMaxBudgetUsd)
        job.escrowAmountUsd "USDC" hesc]
  refine ⟨_, _, _, _, rfl, rfl, rfl, rfl, ?_, rfl, ?_, ?_, rfl⟩
  · dsimp only
    rw [updateReputation_balance]
    dsimp only
    rw [hminE]
  · dsimp only
    rw [hminE]
  · dsimp only
    rw [updateReputation_jobs]

/-- C2 amended claim at the concrete fixture: usage cost 0 clamps up to the
worker minimum 1000, the 3000 escrow releases, and 2000 returns to the
client. -/
theorem c2_complete_release_amended_witness :
    ∃ job' client' worker' entries,
      completeJob c2Job c2Client (newAgent none) c2Job.clientAgentId 5 none 0 =
        .ok (job', client', worker', entries) ∧
      job'.settlementAmountUsd =
        min (max 0 c2Job.workerMinPayoutUsd) c2Job.clientMaxBudgetUsd ∧
      job'.status = "completed" ∧ job'.escrowStatus = "released" ∧
      worker'.balance = (newAgent none).balance + job'.settlementAmountUsd ∧
      client'.escrowBalance = c2Client.escrowBalance - c2Job.escrowAmountUsd ∧
      client'.balance = c2Client.balance +
        (c2Job.escrowAmountUsd - job'.settlementAmountUsd) ∧
      worker'.jobsCompleted = (newAgent none).jobsCompleted + 1 ∧
      client'.jobsHired = c2Client.jobsHired + 1 :=
  c2_complete_release_amended c2Job c2Client (newAgent none) 5 none 0 rfl
    (by norm_num) (by norm_num) (by decide) rfl

/-- C4.  The claim says every state reachable by the core balance operations
keeps `available ≥ 0` and `escrow ≥ 0`.  But `update_balance` applies an
arbitrary signed delta with no floor check: one call with delta −1 on a
freshly created agent (balance 0) commits a negative available balance. -/
theorem c4_negative_balance_counterexample :
    AgentReach (newAgent none) (updateBalance (newAgent none) (-1)) ∧
    (updateBalance (newAgent none) (-1)).balance < 0 :=
  ⟨AgentReach.updateBal _ _ _ (AgentReach.refl _),
   by norm_num [updateBalance, newAgent]⟩

/-- C4 (amended).  Starting from non-negative balances, every state
reachable by the core balance operations as their in-repo callers invoke
them — escrow amounts and payouts non-negative, `update_balance` deltas
either non-negative credits or debits bounded by a prior balance check —
keeps `available ≥ 0` and `escrow ≥ 0`; the operations alone do not enforce
this (`update_balance` has no floor check). -/
theorem c4_balances_nonneg_amended (a b : Agent) (h : AgentReachChecked a b)
    (hb : 0 ≤ a.balance) (he : 0 ≤ a.escrowBalance) :
    0 ≤ b.balance ∧ 0 ≤ b.escrowBalance := by
  induction h with
  | refl => exact ⟨hb, he⟩
  | updateBal b δ h hguard ih =>
    obtain ⟨ib, ie⟩ := ih
    refine ⟨?_, ie⟩
    unfold updateBalance
    rcases hguard with hd | hd
    · exact add_nonneg ib hd
    · exact hd
  | lock b b' jid amt cur e h hguard hop ih =>
    obtain ⟨ib, ie⟩ := ih
    obtain ⟨hle, hb'⟩ := lockEscrow_ok_inv b jid amt cur b' e hop
    subst hb'
    constructor
    · dsimp only
      exact sub_nonneg.mpr hle
    · dsimp only
      exact add_nonneg ie hguard
  | refund b b' jid amt cur e h hguard hop ih =>
    obtain ⟨ib, ie⟩ := ih
    obtain ⟨hle, hb'⟩ := refundEscrow_ok_inv b jid amt cur b' e hop
    subst hb'
    constructor
    · dsimp only
      exact add_nonneg ib hguard
    · dsimp only
      exact sub_nonneg.mpr hle
  | releaseClient b b' w w' jid p t cur es h hp ht hop ih =>
    obtain ⟨ib, ie⟩ := ih
    obtain ⟨hle, hb', -⟩ := releaseEscrow_ok_inv b w jid p t cur b' w' es hop
    subst hb'
    constructor
    · dsimp only
      exact add_nonneg ib (sub_nonneg.mpr (min_le_right p t))
    · dsimp only
      exact sub_nonneg.mpr hle
  | releaseWorker b b' c c' jid p t cur es h hp ht hop ih =>
    obtain ⟨ib, ie⟩ := ih
    obtain ⟨-, -, hb'⟩ := releaseEscrow_ok_inv c b jid p t cur c' b' es hop
    subst hb'
    constructor
    · dsimp only
      exact add_nonneg ib (le_min hp ht)
    · dsimp only
      exact ie

/-- C4 amended claim at a concrete input: a credit of 5 on a fresh agent
keeps both balances non-negative. -/
theorem c4_balances_nonneg_amended_witness :
    0 ≤ (updateBalance (newAgent none) 5).balance ∧
    0 ≤ (updateBalance (newAgent none) 5).escrowBalance :=
  c4_balances_nonneg_amended (newAgent none) _
    (AgentReachChecked.updateBal _ _ 5 (AgentReachChecked.refl _)
      (Or.inl (by norm_num)))
    (by norm_num [newAgent]) (by norm_num [newAgent])

/-- C5.  The claim says `current_price` always lies in
`[service_min_price, min(service_max_price, client_max_price)]` when
`client_max_price` is set.  But the budget check in
`respond_to_negotiation` runs only when the *client* counters: from a
negotiation opened at 1500 with `client_max_price = 2000` (bounds
1000–5000), a worker counter of 3000 is accepted and committed, leaving a
reachable state whose `current_price` 3000 exceeds the client budget
2000. -/
theorem c5_worker_counter_counterexample :
    NegReachable c5Neg1 ∧ c5Neg1.clientMaxPrice = some 2000 ∧
    c5Neg1.serviceMaxPrice = 5000 ∧ c5Neg1.currentPrice = 3000 ∧
    ¬((3000 : ℚ) ≤ 2000) := by
  refine ⟨?_, rfl, rfl, rfl, by norm_num⟩
  have h0 : startNegotiation c5Service "svc-1" c5Client "client-1"
      "translate a document" 1500 (some 2000) none 0 = .ok (c5Neg0, c5Off0) := by
    unfold startNegotiation c5Service c5Client c5Neg0 c5Off0 pyTruthy
    norm_num
  have hww : ("worker-1" : String) ≠ "client-1" := by decide
  have hcw : ("client" : String) ≠ "worker" := by decide
  have hwc : ("worker" : String) ≠ "client" := by decide
  have hca : ("counter" : String) ≠ "accept" := by decide
  have h1 : respondToNegotiation c5Neg0 "worker-1" 0 "counter" (some 3000)
      none 1 = (c5Neg1,
        [{ agentId := "worker-1", agentRole := "worker",
           action := "counter", price := 3000, message := none }],
        .ok ()) := by
    unfold respondToNegotiation c5Neg0 c5Neg1 pyTruthy
    norm_num [hww, hcw, hwc, hca, c5Neg0]
  exact NegReachable.step c5Neg0 "worker-1" 0 "counter" (some 3000) none 1
    c5Neg1 _ _ (NegReachable.start c5Service "svc-1" c5Client "client-1"
      "translate a document" 1500 (some 2000) none 0 c5Neg0 c5Off0 h0) h1

/-- C5 (amended).  In every reachable negotiation state `current_price` lies
in `[service_min_price, service_max_price]`, and when `client_max_price` is
set (and non-zero, since the source guards it with Python truthiness) the
bound `current_price ≤ client_max_price` holds whenever the current
proposer is the client; a worker counter-offer is not checked against the
client's budget. -/
theorem c5_price_bounds_amended (n : Negotiation) (h : NegReachable n) :
    (n.serviceMinPrice ≤ n.currentPrice ∧
      n.currentPrice ≤ n.serviceMaxPrice) ∧
    (∀ c, n.clientMaxPrice = some c → c ≠ 0 →
      n.currentProposer = "client" → n.currentPrice ≤ c) := by
  induction h with
  | start service serviceId client clientAgentId jobDescription initialOffer
      clientMaxPrice message now nn off hok =>
    obtain ⟨h1, h2, h3, hn⟩ := startNegotiation_ok_inv service serviceId
      client clientAgentId jobDescription initialOffer clientMaxPrice
      message now nn off hok
    subst hn
    refine ⟨⟨h1, h2⟩, ?_⟩
    intro c hcm hcne _
    exact h3 c hcm hcne
  | step n aid bal action cp msg now n' offs out hr hstep ih =>
    have hn' : n' = (respondToNegotiation n aid bal action cp msg now).1 := by
      rw [hstep]
    rw [hn']
    rcases respond_cases n aid bal action cp msg now with
      h | ⟨-, h⟩ | h | h | h |
      ⟨cpv, role, -, hlo, hhi, hprop, hrole, hbud, h⟩ <;> rw [h]
    · exact ih
    · exact ih
    · exact ih
    · exact ih
    · exact ih
    · refine ⟨⟨hlo, hhi⟩, ?_⟩
      intro c hcm hcne hcp2
      exact hbud hcp2 c hcm hcne

/-- C5 amended claim at a concrete input: the freshly started negotiation
`c5Neg0` satisfies both bounds. -/
theorem c5_price_bounds_amended_witness :
    (c5Neg0.serviceMinPrice ≤ c5Neg0.currentPrice ∧
      c5Neg0.currentPrice ≤ c5Neg0.serviceMaxPrice) ∧
    (∀ c, c5Neg0.clientMaxPrice = some c → c ≠ 0 →
      c5Neg0.currentProposer = "client" → c5Neg0.currentPrice ≤ c) :=
  c5_price_bounds_amended c5Neg0
    (NegReachable.start c5Service "svc-1" c5Client "client-1"
      "translate a document" 1500 (some 2000) none 0 c5Neg0 c5Off0
      (by unfold startNegotiation c5Service c5Client c5Neg0 c5Off0 pyTruthy
          norm_num))

/-- C9.  The claim says a respond observed exactly at the expiry instant
(`now = expires_at`) transitions the negotiation to `expired` and fails.
The source checks `datetime.utcnow() > negotiation.expires_at` strictly:
on `c9Neg` (active, `expires_at = 10`) a worker `accept` at time 10
succeeds and commits `status = "agreed"`, not `expired`. -/
theorem c9_boundary_counterexample :
    c9Neg.status = "active" ∧ c9Neg.expiresAt = 10 ∧
    respondToNegotiation c9Neg "worker-1" 0 "accept" none none 10 =
      ({ c9Neg with status := "agreed", agreedAt := some 10 },
       [{ agentId := "worker-1", agentRole := "worker", action := "accept",
          price := 1500, message := none }],
       .ok ()) ∧
    ({ c9Neg with status := "agreed", agreedAt := some 10 }).status ≠
      "expired" := by
  have hww : ("worker-1" : String) ≠ "client-1" := by decide
  have hcw : ("client" : String) ≠ "worker" := by decide
  refine ⟨rfl, rfl, ?_, by decide⟩
  unfold respondToNegotiation c9Neg
  norm_num [hww, hcw, c9Neg]

/-- C9 (amended).  An operation on an active negotiation transitions it to
`expired` and fails only when it is observed strictly after the deadline
(`now > expires_at`); observed at `now ≤ expires_at` — including exactly at
the expiry instant — the committed state is never `expired`. -/
theorem c9_expiry_strict_amended (n : Negotiation) (aid : String) (bal : ℚ)
    (action : String) (cp : Option ℚ) (msg : Option String) (now : ℚ)
    (hact : n.status = "active") :
    (now > n.expiresAt →
      respondToNegotiation n aid bal action cp msg now =
        ({ n with status := "expired" }, [],
         .error "Negotiation has expired")) ∧
    (now ≤ n.expiresAt →
      (respondToNegotiation n aid bal action cp msg now).1.status ≠
        "expired") := by
  constructor
  · intro hexp
    unfold respondToNegotiation
    rw [if_neg (not_not_intro hact), if_pos hexp]
  · intro hle
    rcases respond_cases n aid bal action cp msg now with
      h | ⟨hgt, -⟩ | h | h | h | ⟨cpv, role, -, -, -, -, -, -, h⟩
    · rw [h, hact]
      decide
    · exact absurd hgt (not_lt.mpr hle)
    · rw [h]
      dsimp only
      decide
    · rw [h]
      dsimp only
      decide
    · rw [h]
      dsimp only
      decide
    · rw [h]
      dsimp only
      rw [hact]
      decide

/-- C9 amended claim at a concrete input: on `c9Neg` (expiry instant 10),
responding after the deadline expires it, and responding at or before the
deadline never commits `expired`. -/
theorem c9_expiry_strict_amended_witness :
    (11 > c9Neg.expiresAt →
      respondToNegotiation c9Neg "worker-1" 0 "accept" none none 11 =
        ({ c9Neg with status := "expired" }, [],
         .error "Negotiation has expired")) ∧
    ((11 : ℚ) ≤ c9Neg.expiresAt →
      (respondToNegotiation c9Neg "worker-1" 0 "accept" none none 11).1.status ≠
        "expired") :=
  c9_expiry_strict_amended c9Neg "worker-1" 0 "accept" none none 11 rfl

/-- C10.  On an active negotiation at its round limit, a `counter` whose
price passes the bounds and balance checks commits `status = "rejected"`
with the incremented `round_count` and then raises — the error path is not
atomic and appends no offer record — while the `accept`, `reject`, and
below-limit `counter` paths each append exactly one offer record. -/
theorem c10_counter_at_max_rounds (n : Negotiation) (aid : String)
    (bal cpv : ℚ) (msg : Option String) (now : ℚ)
    (hact : n.status = "active") (hexp : now ≤ n.expiresAt)
    (hcp0 : cpv ≠ 0)
    (hlo : n.serviceMinPrice ≤ cpv) (hhi : cpv ≤ n.serviceMaxPrice)
    (hrole : (aid = n.clientAgentId ∧ n.currentProposer ≠ "client" ∧
              (∀ c, n.clientMaxPrice = some c → c ≠ 0 → cpv ≤ c) ∧ cpv ≤ bal)
           ∨ (aid ≠ n.clientAgentId ∧ aid = n.workerAgentId ∧
              n.currentProposer ≠ "worker")) :
    (n.roundCount = n.maxRounds →
      respondToNegotiation n aid bal "counter" (some cpv) msg now =
        ({ n with roundCount := n.roundCount + 1, status := "rejected" }, [],
         .error "Maximum negotiation rounds reached")) ∧
    (n.roundCount < n.maxRounds →
      ∃ role, respondToNegotiation n aid bal "counter" (some cpv) msg now =
        ({ n with
           roundCount := n.roundCount + 1, currentPrice := cpv,
           currentProposer := role },
         [{ agentId := aid, agentRole := role, action := "counter",
            price := cpv, message := msg }],
         .ok ())) ∧
    (∃ role, respondToNegotiation n aid bal "accept" none msg now =
      ({ n with status := "agreed", agreedAt := some now },
       [{ agentId := aid, agentRole := role, action := "accept",
          price := n.currentPrice, message := msg }],
       .ok ())) ∧
    (∃ role, respondToNegotiation n aid bal "reject" none msg now =
      ({ n with status := "rejected" },
       [{ agentId := aid, agentRole := role, action := "reject",
          price := n.currentPrice, message := msg }],
       .ok ())) := by
  obtain ⟨role, hrq, hprop, hbud, hbal⟩ :
      ∃ role, (if aid = n.clientAgentId then some "client"
          else if aid = n.workerAgentId then some "worker" else none) =
            some role ∧
        ¬(n.currentProposer = role) ∧
        ¬(role = "client" ∧ pyTruthy n.clientMaxPrice ∧
          cpv > n.clientMaxPrice.getD 0) ∧
        ¬(role = "client" ∧ bal < cpv) := by
    rcases hrole with ⟨hc1, hc2, hc3, hc4⟩ | ⟨hw1, hw2, hw3⟩
    · refine ⟨"client", by rw [if_pos hc1], hc2, ?_, ?_⟩
      · rintro ⟨-, htr, hgt⟩
        match hm : n.clientMaxPrice with
        | none => rw [hm] at htr; simp [pyTruthy] at htr
        | some c =>
          rw [hm] at htr hgt
          have hcne : c ≠ 0 := by simpa [pyTruthy] using htr
          have hle := hc3 c hm hcne
          simp only [Option.getD_some] at hgt
          exact absurd hgt (not_lt.mpr hle)
      · rintro ⟨-, hlt⟩
        exact absurd hlt (not_lt.mpr hc4)
    · refine ⟨"worker", by rw [if_neg hw1, if_pos hw2], hw3, ?_, ?_⟩
      · rintro ⟨habs, -⟩
        exact absurd habs (by decide)
      · rintro ⟨habs, -⟩
        exact absurd habs (by decide)
  have hexp' : ¬(now > n.expiresAt) := not_lt.mpr hexp
  have hcSpec := respond_counter_spec n aid bal cpv msg now role hact hexp'
    hrq hprop hcp0 (not_lt.mpr hlo) (not_lt.mpr hhi) hbud hbal
  refine ⟨?_, ?_, ?_, ?_⟩
  · intro hmax
    rw [hcSpec, if_pos (by omega)]
  · intro hlt
    exact ⟨role, by rw [hcSpec, if_neg (by omega)]⟩
  · refine ⟨role, ?_⟩
    unfold respondToNegotiation
    rw [if_neg (not_not_intro hact), if_neg hexp', hrq]
    dsimp only
    rw [if_neg hprop, if_pos rfl]
  · refine ⟨role, ?_⟩
    unfold respondToNegotiation
    rw [if_neg (not_not_intro hact), if_neg hexp', hrq]
    dsimp only
    rw [if_neg hprop,
        if_neg (show ¬(("reject" : String) = "accept") by decide),
        if_neg (show ¬(("reject" : String) = "counter") by decide),
        if_pos rfl]

/-- C10 at a concrete input: `c10Neg` sits at its round limit (5 of 5), the
worker's counter of 2000 commits the rejection with round 6 and no offer,
while accept and reject would each append one offer. -/
theorem c10_counter_at_max_rounds_witness :
    (c10Neg.roundCount = c10Neg.maxRounds →
      respondToNegotiation c10Neg "worker-1" 0 "counter" (some 2000) none 50 =
        ({ c10Neg with
           roundCount := c10Neg.roundCount + 1, status := "rejected" }, [],
         .error "Maximum negotiation rounds reached")) ∧
    (c10Neg.roundCount < c10Neg.maxRounds →
      ∃ role, respondToNegotiation c10Neg "worker-1" 0 "counter" (some 2000)
          none 50 =
        ({ c10Neg with
           roundCount := c10Neg.roundCount + 1, currentPrice := 2000,
           currentProposer := role },
         [{ agentId := "worker-1", agentRole := role, action := "counter",
            price := 2000, message := none }],
         .ok ())) ∧
    (∃ role, respondToNegotiation c10Neg "worker-1" 0 "accept" none none 50 =
      ({ c10Neg with status := "agreed", agreedAt := some 50 },
       [{ agentId := "worker-1", agentRole := role, action := "accept",
          price := c10Neg.currentPrice, message := none }],
       .ok ())) ∧
    (∃ role, respondToNegotiation c10Neg "worker-1" 0 "reject" none none 50 =
      ({ c10Neg with status := "rejected" },
       [{ agentId := "worker-1", agentRole := role, action := "reject",
          price := c10Neg.currentPrice, message := none }],
       .ok ())) :=
  c10_counter_at_max_rounds c10Neg "worker-1" 0 2000 none 50 rfl
    (by decide) (by norm_num) (by decide) (by decide)
    (Or.inr ⟨by decide, rfl, by decide⟩)

/-- C1.  A transaction hash whose stored record is already `credited` is
rejected with `AlreadyProcessed` (HTTP 409) and the entire database state —
the transaction record and every agent balance — is returned unchanged; and
after any successful verification, a second call with the same hash returns
that same unchanged state with `AlreadyProcessed`. -/
theorem c1_verify_replay (st : PaymentState) (cv cv' : Bool)
    (txHash : String) (amount amount' : ℚ) (currency currency' ini ini' : String)
    (tt tt' : TransactionType) (rec rec' tok tok' : Option String)
    (pw pw' usdc usdc' : String) (now now' : ℚ) :
    (∀ tx, st.txs (normalizeTxHash txHash) = some tx →
      tx.status = .credited →
      verifyAndCreditPayment st cv txHash amount currency ini tt rec tok pw
          usdc now = (st, .error .alreadyProcessed) ∧
      errHttpCode .alreadyProcessed = 409) ∧
    (∀ st₁ r,
      verifyAndCreditPayment st cv txHash amount currency ini tt rec tok pw
          usdc now = (st₁, .ok r) →
      verifyAndCreditPayment st₁ cv' txHash amount' currency' ini' tt' rec'
          tok' pw' usdc' now' = (st₁, .error .alreadyProcessed)) := by
  constructor
  · intro tx hfind hcred
    refine ⟨?_, rfl⟩
    unfold verifyAndCreditPayment
    dsimp only
    rw [hfind]
    dsimp only
    rw [hcred]
  · intro st₁ r hok
    obtain ⟨hfind, hcred⟩ := verifyAndCreditPayment_ok_inv st cv txHash
      amount currency ini tt rec tok pw usdc now st₁ r hok
    unfold verifyAndCreditPayment
    dsimp only
    rw [hfind]
    dsimp only
    rw [hcred]

/-- C1 at a concrete input: verifying `0xaa`, already credited in
`c1State`, returns the state unchanged with a 409. -/
theorem c1_verify_replay_witness :
    verifyAndCreditPayment c1State true "0xaa" 100 "USDC" "alice" .topUp
        none none "platform-wallet" "usdc-addr" 3 =
      (c1State, .error .alreadyProcessed) ∧
    errHttpCode .alreadyProcessed = 409 :=
  (c1_verify_replay c1State true true "0xaa" 100 100 "USDC" "USDC" "alice"
      "alice" .topUp .topUp none none none none "platform-wallet"
      "platform-wallet" "usdc-addr" "usdc-addr" 3 3).1
    c1CreditedTx (by decide) rfl

/-- C6.  The claim says a Ledger failure during the credit step leaves the
PaymentTransaction at `status = verified` with a `failure_reason`.  In the
source, `_complete_credit` catches the `ValueError` raised by
`update_balance` and commits `status = FAILED` (with a failure reason), not
`verified`: verifying a fresh valid transaction whose credit target has no
agent row ends with the stored row `failed`. -/
theorem c6_ledger_failure_counterexample :
    ((c6Call.1.txs "0xbb").map (fun t => t.status) =
      some TransactionStatus.failed) ∧
    ((c6Call.1.txs "0xbb").map (fun t => t.failureReason) =
      some (some "Balance update failed: Agent not found")) ∧
    c6Call.2 = .error (.notFound "Agent not found") ∧
    TransactionStatus.failed ≠ TransactionStatus.verified := by
  refine ⟨?_, ?_, ?_, by decide⟩ <;> decide

/-- C6 (amended).  When the balance update inside `_complete_credit` fails
(the credit-target agent row does not exist), the transaction is committed
with `status = failed` and a `failure_reason`, and the error is surfaced; a
later retry with the same hash takes the `failed` → delete-and-restart
path (a full re-verification), not the `verified`-recovery path. -/
theorem c6_ledger_failure_amended (st : PaymentState) (cv : Bool)
    (txHash : String) (amount : ℚ) (currency ini : String)
    (tt : TransactionType) (rec tok : Option String) (pw usdc : String)
    (now : ℚ) (tx : PaymentTransaction) (aid : String)
    (hfind : st.txs (normalizeTxHash txHash) = some tx)
    (hst : tx.status = .verified)
    (htgt : creditTarget tx = .ok aid)
    (hag : st.agents aid = none) :
    verifyAndCreditPayment st cv txHash amount currency ini tt rec tok pw
        usdc now =
      (insertTx st (normalizeTxHash txHash)
        { tx with
          status := .failed,
          failureReason := some "Balance update failed: Agent not found" },
       .error (.notFound "Agent not found")) ∧
    (∀ (s : PaymentState) (t : PaymentTransaction),
      s.txs (normalizeTxHash txHash) = some t → t.status = .failed →
      verifyAndCreditPayment s cv txHash amount currency ini tt rec tok pw
          usdc now =
        verifyFreshPayment (deleteTx s (normalizeTxHash txHash)) cv
          (normalizeTxHash txHash) amount currency ini tt rec tok pw usdc
          now false) := by
  constructor
  · unfold verifyAndCreditPayment
    dsimp only
    rw [hfind]
    dsimp only
    rw [hst]
    dsimp only
    unfold completeCredit
    rw [htgt]
    dsimp only
    rw [hag]
  · intro s t hf hfail
    unfold verifyAndCreditPayment
    dsimp only
    rw [hf]
    dsimp only
    rw [hfail]

/-- C6 amended claim at a concrete input: retrying the stuck `verified`
transaction `0xcc`, whose target agent is missing, marks it `failed` and
surfaces the error. -/
theorem c6_ledger_failure_amended_witness :
    verifyAndCreditPayment c6VerState true "0xcc" 5 "USDC" "alice" .topUp
        none none "platform-wallet" "usdc-addr" 9 =
      (insertTx c6VerState (normalizeTxHash "0xcc")
        { c6VerTx with
          status := .failed,
          failureReason := some "Balance update failed: Agent not found" },
       .error (.notFound "Agent not found")) ∧
    (∀ (s : PaymentState) (t : PaymentTransaction),
      s.txs (normalizeTxHash "0xcc") = some t → t.status = .failed →
      verifyAndCreditPayment s true "0xcc" 5 "USDC" "alice" .topUp none none
          "platform-wallet" "usdc-addr" 9 =
        verifyFreshPayment (deleteTx s (normalizeTxHash "0xcc")) true
          (normalizeTxHash "0xcc") 5 "USDC" "alice" .topUp none none
          "platform-wallet" "usdc-addr" 9 false) :=
  c6_ledger_failure_amended c6VerState true "0xcc" 5 "USDC" "alice" .topUp
    none none "platform-wallet" "usdc-addr" 9 c6VerTx "alice" (by decide)
    rfl rfl rfl

/-- C7.  The state machine table `VALID_TRANSITIONS` declares
`in_progress → failed`, yet no implemented job operation ever commits a job
with `status = "failed"`: `start`, `deliver`, `request_revision`,
`complete`, and `cancel` are the only job-mutating operations and none
produces it.  The worker-only `fail(worker, reason)` operation the
specification describes does not exist in the source. -/
theorem c7_no_fail_operation :
    ("in_progress", ["delivered", "failed"]) ∈ VALID_TRANSITIONS ∧
    (∀ job wid j', startJob job wid = .ok j' → j'.status ≠ "failed") ∧
    (∀ job wid j', deliverJob job wid = .ok j' → j'.status ≠ "failed") ∧
    (∀ job cid j', requestRevision job cid = .ok j' → j'.status ≠ "failed") ∧
    (∀ job c w cid rating review usage j' c' w' es,
      completeJob job c w cid rating review usage = .ok (j', c', w', es) →
      j'.status ≠ "failed") ∧
    (∀ job c cid j' c' e, cancelJob job c cid = .ok (j', c', e) →
      j'.status ≠ "failed") := by
  refine ⟨by decide, ?_, ?_, ?_, ?_, ?_⟩
  · intro job wid j' h
    unfold startJob at h
    split_ifs at h
    rw [Except.ok.injEq] at h
    subst h
    dsimp only
    decide
  · intro job wid j' h
    unfold deliverJob at h
    split_ifs at h
    rw [Except.ok.injEq] at h
    subst h
    dsimp only
    decide
  · intro job cid j' h
    unfold requestRevision at h
    split_ifs at h
    rw [Except.ok.injEq] at h
    subst h
    dsimp only
    decide
  · intro job c w cid rating review usage j' c' w' es h
    unfold completeJob at h
    split_ifs at h
    dsimp only at h
    cases hrel : releaseEscrow c w job.id
        (if (if usage < job.workerMinPayoutUsd then job.workerMinPayoutUsd
             else usage) > job.clientMaxBudgetUsd then job.clientMaxBudgetUsd
         else if usage < job.workerMinPayoutUsd then job.workerMinPayoutUsd
         else usage)
        job.escrowAmountUsd with
    | error e =>
      rw [hrel] at h
      dsimp only at h
      exact Except.noConfusion h
    | ok trip =>
      obtain ⟨c1, w1, es1⟩ := trip
      rw [hrel] at h
      dsimp only at h
      rw [Except.ok.injEq, Prod.mk.injEq] at h
      rw [← h.1]
      dsimp only
      decide
  · intro job c cid j' c' e h
    unfold cancelJob at h
    split_ifs at h
    cases hrel : refundEscrow c job.id job.escrowAmountUsd with
    | error er =>
      rw [hrel] at h
      dsimp only at h
      exact Except.noConfusion h
    | ok pr =>
      obtain ⟨c1, e1⟩ := pr
      rw [hrel] at h
      dsimp only at h
      rw [Except.ok.injEq, Prod.mk.injEq] at h
      rw [← h.1]
      dsimp only
      decide

/-- C7 at a concrete input: the table declares `in_progress → failed`, and
starting the pending job `c7Job` yields `in_progress`, not `failed`. -/
theorem c7_no_fail_operation_witness :
    ("in_progress", ["delivered", "failed"]) ∈ VALID_TRANSITIONS ∧
    ({ c7Job with status := "in_progress" } : Job).status ≠ "failed" :=
  ⟨c7_no_fail_operation.1,
   c7_no_fail_operation.2.1 c7Job "worker-1"
     { c7Job with status := "in_progress" } (by decide)⟩

end AgentMarket
